import Mathlib

/-!
Verification development for the mission-level coordinator `scripts/mission7.py`
of the `iarc7_abstract` repository.

The Python source is shallowly embedded below.  Conventions used throughout:

* ROS message types (`Odometry`, poses, `QuadMoveGoal`) become Lean structures
  carrying exactly the fields the mission logic reads or writes; numeric
  fields are rationals.
* `math.sqrt(dx**2 + dy**2)` distances are represented by their squares
  (`roomba_distance_sq`).  Every use of a distance in the source is a
  comparison of two nonnegative quantities (another distance, or the constant
  `MIN_GOTO_DISTANCE`), and `sqrt` is strictly monotone on nonnegatives, so
  `d1 ⋈ d2` holds iff `d1^2 ⋈ d2^2`; the embedding compares squares against
  squared constants.
* The `actionlib.SimpleActionClient` becomes a `Client` record holding the
  status reported by `get_state` together with a log of submitted actions.
  `send_goal` resets the reported status to `pending` (a freshly sent goal's
  status is PENDING until the server reports otherwise), which is how the
  client behaves between a `send_goal` call and the next status message.
* Blocking loops (`wait_for_roomba`, the search loop, the tracking loop, the
  mission loop) become step functions driven by explicit lists of environment
  responses, or single-iteration tick functions; the fallible list indexing
  `sorted_roombas[0]` becomes an `Except` value whose error is the raised
  `IndexError`.
* Python 2 `sorted` on `(distance, message)` tuples: tuple comparison falls
  back to comparing the message objects when the distances are equal, and a
  genpy message defines no ordering, so CPython 2 orders two same-type
  objects by their `id()`.  Each embedded `Odometry` therefore carries a
  `pyId` field recording that object identity, and the sort relation on
  pairs is lexicographic in `(distance, pyId)`.  Python's `sorted` is
  stable; `List.insertionSort` is the stable sort used to model it.
-/

/-- Cartesian point of a ROS pose message (`position.x/y/z`). -/
structure Position where
  x : ℚ
  y : ℚ
  z : ℚ
  deriving DecidableEq, Repr

/-- Pose part of a ROS pose message.  The quaternion field is omitted: the
only use of a roomba's quaternion in the mission logic is `roomba_yaw`,
whose result is bound to a local (`roomba_heading`) and never read. -/
structure RosPose where
  position : Position
  deriving DecidableEq, Repr

/-- The `pose` wrapper of `nav_msgs/Odometry` (`msg.pose.pose`). -/
structure PoseWithCovariance where
  pose : RosPose
  deriving DecidableEq, Repr

/-- A `nav_msgs/Odometry` message as the mission logic reads it: planar
position via `pose.pose.position` and the roomba identifier
`child_frame_id`.  `pyId` is the CPython object identity of the message
object; Python 2's default comparison of two same-type objects without
comparison methods orders them by `id()`, which is the fallback the tuple
sort in `target_roomba_law` hits when two distances are equal. -/
structure Odometry where
  pose : PoseWithCovariance
  child_frame_id : String
  pyId : ℕ
  deriving DecidableEq, Repr

/-- Module constant `TRANSLATION_HEIGHT = 1.5`. -/
def TRANSLATION_HEIGHT : ℚ := 1.5

/-- Module constant `MIN_GOTO_DISTANCE = 0.5`. -/
def MIN_GOTO_DISTANCE : ℚ := 0.5

/-- Square of `MIN_GOTO_DISTANCE`; distances are embedded through their
squares, so threshold comparisons use this constant. -/
def MIN_GOTO_DISTANCE_SQ : ℚ := MIN_GOTO_DISTANCE ^ 2

/-- Module constant `TARGET_NUM_ROOMBAS = 2`. -/
def TARGET_NUM_ROOMBAS : ℕ := 2

/-- Module constant `MAX_FLIGHT_DURATION = 1 * 60` (seconds). -/
def MAX_FLIGHT_DURATION : ℚ := 1 * 60

/-- Module constant `SEARCH_POINTS`: the six arena search waypoints, in
source order (center, mid left, bottom left, bottom right, mid right,
top middle). -/
def SEARCH_POINTS : List (ℚ × ℚ) :=
  [(0, 0), (0, 7.5), (-7.5, 7.5), (-7.5, -7.5), (0, -7.5), (7.5, 0)]

/-- Square of `roomba_distance(roomba_odom, drone_odom)`: the source returns
`math.sqrt(x_diff**2 + y_diff**2)`; the embedding keeps the radicand. -/
def roomba_distance_sq (roomba_odom drone_odom : Odometry) : ℚ :=
  (drone_odom.pose.pose.position.x - roomba_odom.pose.pose.position.x) ^ 2 +
    (drone_odom.pose.pose.position.y - roomba_odom.pose.pose.position.y) ^ 2

/-- Python 2 ordering of the `(roomba_distance(r, odom), r)` tuples built in
`target_roomba_law`: compare the distances first, and when they are equal
fall back to CPython 2's default object comparison, which for two messages
of the same class orders by object identity (`pyId`). -/
def py2_pair_le (p q : ℚ × Odometry) : Prop :=
  p.1 < q.1 ∨ (p.1 = q.1 ∧ p.2.pyId ≤ q.2.pyId)

instance py2_pair_le_dec : DecidableRel py2_pair_le := fun p q =>
  inferInstanceAs (Decidable (p.1 < q.1 ∨ (p.1 = q.1 ∧ p.2.pyId ≤ q.2.pyId)))

instance py2_pair_le_total : IsTotal (ℚ × Odometry) py2_pair_le where
  total a b := by
    rcases lt_trichotomy a.1 b.1 with h | h | h
    · exact Or.inl (Or.inl h)
    · rcases Nat.le_total a.2.pyId b.2.pyId with h2 | h2
      · exact Or.inl (Or.inr ⟨h, h2⟩)
      · exact Or.inr (Or.inr ⟨h.symm, h2⟩)
    · exact Or.inr (Or.inl h)

instance py2_pair_le_trans : IsTrans (ℚ × Odometry) py2_pair_le where
  trans a b c hab hbc := by
    rcases hab with hab | ⟨hab, hab2⟩
    · rcases hbc with hbc | ⟨hbc, _⟩
      · exact Or.inl (hab.trans hbc)
      · exact Or.inl (hbc ▸ hab)
    · rcases hbc with hbc | ⟨hbc, hbc2⟩
      · exact Or.inl (hab ▸ hbc)
      · exact Or.inr ⟨hab.trans hbc, hab2.trans hbc2⟩

/-- Embedding of `target_roomba_law(roombas, odom)`:

    sorted_roombas = sorted([(roomba_distance(r, odom), r) for r in roombas])
    return sorted_roombas[0][1]

`sorted` is Python's stable sort under the tuple ordering `py2_pair_le`,
modeled by the stable `List.insertionSort`.  Indexing `[0]` on an empty
list raises `IndexError`, embedded as the `Except.error` branch. -/
def target_roomba_law (roombas : List Odometry) (odom : Odometry) : Except String Odometry :=
  let sorted_roombas :=
    List.insertionSort py2_pair_le (roombas.map (fun r => (roomba_distance_sq r odom, r)))
  match sorted_roombas with
  | [] => Except.error "IndexError: list index out of range"
  | p :: _ => Except.ok p.2

/-- Embedding of `find_roomba_by_id(roombas, desired_id)`: filter by
`child_frame_id`, return `None` when the filtered list is empty and its
first element otherwise. -/
def find_roomba_by_id (roombas : List Odometry) (desired_id : String) : Option Odometry :=
  let roomba_list := roombas.filter (fun x => x.child_frame_id == desired_id)
  match roomba_list with
  | [] => none
  | x :: _ => some x

/-- Status an `actionlib` goal can report through `get_state`, restricted to
the values the mission logic inspects. -/
inductive GoalStatus where
  | pending
  | active
  | succeeded
  | aborted
  | rejected
  | preempted
  | recalled
  deriving DecidableEq, Repr

/-- An `iarc7_motion/QuadMoveGoal` message, with the fields the mission sets;
unset fields keep the ROS message defaults (`""` / `0`). -/
structure QuadMoveGoal where
  movement_type : String := ""
  frame_id : String := ""
  x_position : ℚ := 0
  y_position : ℚ := 0
  z_position : ℚ := 0
  x_overshoot : ℚ := 0
  y_overshoot : ℚ := 0
  time_to_track : ℚ := 0
  deriving DecidableEq, Repr

/-- Observable operations the mission issues on the action client. -/
inductive GoalAction where
  | send (goal : QuadMoveGoal)
  | cancel
  deriving DecidableEq, Repr

/-- The `SimpleActionClient` as the mission observes and drives it: the
status `get_state` currently reports, and the log of issued operations. -/
structure Client where
  status : GoalStatus
  log : List GoalAction
  deriving DecidableEq, Repr

/-- Embedding of `self._client.send_goal(goal)`: the operation is logged and
the reported status becomes `pending` (a freshly submitted goal reports
PENDING until the server publishes a newer status). -/
def send_goal (c : Client) (goal : QuadMoveGoal) : Client :=
  { status := GoalStatus.pending, log := c.log ++ [GoalAction.send goal] }

/-- Embedding of `self._client.cancel_goal()`: the operation is logged; the
source never polls the status between a cancel and the following
`send_goal`, so the reported status is left unchanged. -/
def cancel_goal (c : Client) : Client :=
  { status := c.status, log := c.log ++ [GoalAction.cancel] }

/-- Embedding of `did_task_fail(client)`: the reported state is one of
ABORTED, REJECTED, PREEMPTED, RECALLED. -/
def did_task_fail (c : Client) : Bool :=
  c.status == GoalStatus.aborted || c.status == GoalStatus.rejected ||
    c.status == GoalStatus.preempted || c.status == GoalStatus.recalled

/-- Embedding of `did_task_succeed(client)`: the reported state is SUCCEEDED. -/
def did_task_succeed (c : Client) : Bool :=
  c.status == GoalStatus.succeeded

/-- Embedding of `did_task_finish(client)`. -/
def did_task_finish (c : Client) : Bool :=
  did_task_fail c || did_task_succeed c

/-- Embedding of `construct_goto_roomba_goal(roomba)`. -/
def construct_goto_roomba_goal (roomba : Odometry) : QuadMoveGoal :=
  { movement_type := "xyztranslate",
    x_position := roomba.pose.pose.position.x,
    y_position := roomba.pose.pose.position.y,
    z_position := TRANSLATION_HEIGHT }

/-- One iteration of the `while True` loop of
`Mission7.track_roomba_to_completion` (source lines 189-239), as a function
of the tracked id, the latest roomba snapshot and drone odometry, the
integer sub-state `track_state` (0 = decide, 1 = going to roomba,
2 = tracking), and the action client.  Results: `(some b, ...)` models
`return b`; `(none, ts, c)` models falling through to `rate.sleep()` with
updated sub-state and client.  The three `if track_state == k` blocks are
sequential (not `elif`) in the source, so a block entered in this very
iteration is dispatched on the *updated* sub-state, exactly as below.  The
`roomba_heading = roomba_yaw(roomba)` in the else-branch of state 2 binds a
local that is never read and has no further effect. -/
def trackTick (roomba_id : String) (snapshot : List Odometry) (odom : Odometry)
    (track_state : ℕ) (c : Client) : Option Bool × ℕ × Client :=
  match find_roomba_by_id snapshot roomba_id with
  | none => (some false, track_state, c)
  | some roomba =>
    let d_sq := roomba_distance_sq roomba odom
    let sc1 : ℕ × Client :=
      if track_state = 0 then
        if MIN_GOTO_DISTANCE_SQ ≤ d_sq then
          (1, send_goal c (construct_goto_roomba_goal roomba))
        else
          (2, send_goal c { movement_type := "track_roomba", frame_id := roomba_id,
                            x_overshoot := 0, y_overshoot := 0 })
      else (track_state, c)
    let sc2 : ℕ × Client :=
      if sc1.1 = 1 then
        let t1 := if did_task_succeed sc1.2 then 0 else sc1.1
        let t2 := if did_task_fail sc1.2 then 0 else t1
        if d_sq < MIN_GOTO_DISTANCE_SQ then
          (2, send_goal (cancel_goal sc1.2)
                { movement_type := "track_roomba", frame_id := roomba_id,
                  x_overshoot := 0, y_overshoot := 0, time_to_track := 100000 })
        else (t2, sc1.2)
      else sc1
    let t3 : ℕ :=
      if sc2.1 = 2 then (if did_task_finish sc2.2 then 0 else sc2.1) else sc2.1
    (none, t3, sc2.2)

/-- One poll iteration of `Mission7.wait_for_roomba` (source lines 148-159):
`some (ok, maybe_roomba)` models the corresponding `return`; `none` models
falling through to `rate.sleep()` and polling again.  `avail_roombas` is
`self._avail_roombas` (`none` = no snapshot delivered yet).  The source's
`if target_roomba is not None` always passes, because `target_roomba_law`
either returns a roomba or raises; the `Except.error` branch is unreachable
under the `len > 0` guard. -/
def wait_poll (c : Client) (avail_roombas : Option (List Odometry)) (odom : Odometry) :
    Option (Bool × Option Odometry) :=
  if did_task_fail c then some (false, none)
  else if did_task_succeed c then some (true, none)
  else
    match avail_roombas with
    | some roombas =>
      if 0 < roombas.length then
        match target_roomba_law roombas odom with
        | Except.ok target_roomba => some (true, some target_roomba)
        | Except.error _ => none
      else none
    | none => none

/-- Outcome of one waypoint step of the search loop, i.e. of the
`wait_for_roomba` call: the translate failed (`(False, None)`), it succeeded
with no roomba visible (`(True, None)`), or a roomba was acquired. -/
inductive SearchResp where
  | xlate_failed
  | no_roomba
  | found (roomba : Odometry)
  deriving DecidableEq, Repr

/-- Cursor advance of the search loop (source line 175):
`s + 1 if s + 1 < SEARCH_POINTS.shape[0] else 1`. -/
def search_advance (s : ℕ) : ℕ :=
  if s + 1 < SEARCH_POINTS.length then s + 1 else 1

/-- Cursor adjustment on entering `search_for_roomba` (source lines 164-165):
`if self._search_state != 0: self._search_state = 1`. -/
def search_entry (s : ℕ) : ℕ :=
  if s ≠ 0 then 1 else s

/-- The `while True` loop of `Mission7.search_for_roomba` (source lines
168-177), driven by the list of `wait_for_roomba` outcomes.  Returns the
waypoint indices passed to `begin_translate` (one per consumed outcome) and,
when a roomba is acquired, the returned roomba together with the final
cursor, which the source sets to 1 just before `return` (line 180).  `none`
means the loop is still running when the outcomes run out. -/
def search_loop : ℕ → List SearchResp → List ℕ × Option (Odometry × ℕ)
  | _, [] => ([], none)
  | s, SearchResp.xlate_failed :: rest =>
      let t := search_loop s rest
      (s :: t.1, t.2)
  | s, SearchResp.no_roomba :: rest =>
      let t := search_loop (search_advance s) rest
      (s :: t.1, t.2)
  | s, SearchResp.found roomba :: _ => ([s], some (roomba, 1))

/-- Embedding of `Mission7.search_for_roomba` (source lines 161-181):
entry adjustment of the cursor followed by the waypoint loop. -/
def search_for_roomba (s0 : ℕ) (resps : List SearchResp) : List ℕ × Option (Odometry × ℕ) :=
  search_loop (search_entry s0) resps

/-- The `while not mission7_completed` loop of `Mission7.attempt_mission7`
(source lines 250-261), driven by one pair per iteration: the boolean
returned by `track_roomba_to_completion` and the value `rospy.Time.now()`
takes at that iteration's time check.  `some (g, lands)` models loop exit
via `break` followed by the single `self.basic_goal('land')` call
(`lands = 1`); `none` means the loop is still running (hence no land goal
yet) when the iteration list runs out. -/
def mission_loop (flight_start_time : ℚ) : ℕ → List (Bool × ℚ) → Option (ℕ × ℕ)
  | _, [] => none
  | gotten_roombas, (got_roomba, now) :: rest =>
    let gotten_roombas := if got_roomba then gotten_roombas + 1 else gotten_roombas
    if TARGET_NUM_ROOMBAS < gotten_roombas then some (gotten_roombas, 1)
    else if flight_start_time + MAX_FLIGHT_DURATION < now then some (gotten_roombas, 1)
    else mission_loop flight_start_time gotten_roombas rest

/-- Embedding of `Mission7.attempt_mission7` (source lines 241-264) from the
start of the acquisition loop: the counter `gotten_roombas` starts at 0.
The takeoff goal submitted before the loop is not modeled here. -/
def attempt_mission7 (flight_start_time : ℚ) (iters : List (Bool × ℚ)) : Option (ℕ × ℕ) :=
  mission_loop flight_start_time 0 iters

/-- Exit condition of the acquisition loop at its check point, as the claims
state it relative to the loop body (source lines 254-261): after the `j`-th
iteration updates the counter, either the counter exceeds
`TARGET_NUM_ROOMBAS` or the observed time exceeds
`flight_start_time + MAX_FLIGHT_DURATION`. -/
def mission_exit_cond (flight_start_time : ℚ) : ℕ → List (Bool × ℚ) → ℕ → Prop
  | _, [], _ => False
  | gotten_roombas, (got_roomba, now) :: _, 0 =>
      TARGET_NUM_ROOMBAS < (if got_roomba then gotten_roombas + 1 else gotten_roombas) ∨
        flight_start_time + MAX_FLIGHT_DURATION < now
  | gotten_roombas, (got_roomba, _) :: rest, j + 1 =>
      mission_exit_cond flight_start_time
        (if got_roomba then gotten_roombas + 1 else gotten_roombas) rest j

/-- Sample drone odometry at the arena origin, used in concrete instances. -/
def drone0 : Odometry := ⟨⟨⟨⟨0, 0, 0⟩⟩⟩, "drone", 0⟩

/-- Sample roomba 10 m from `drone0` (squared distance 100). -/
def roombaFar : Odometry := ⟨⟨⟨⟨10, 0, 0⟩⟩⟩, "target0", 1⟩

/-- Sample roomba 0.1 m from `drone0` (squared distance 0.01). -/
def roombaNear : Odometry := ⟨⟨⟨⟨0.1, 0, 0⟩⟩⟩, "target0", 2⟩

/-- Sample roomba at (1, 0), squared distance 1 from `drone0`, with the
larger object identity of the `roombaP`/`roombaQ` pair. -/
def roombaP : Odometry := ⟨⟨⟨⟨1, 0, 0⟩⟩⟩, "p", 5⟩

/-- Sample roomba at (0, 1), also squared distance 1 from `drone0`, with the
smaller object identity of the `roombaP`/`roombaQ` pair. -/
def roombaQ : Odometry := ⟨⟨⟨⟨0, 1, 0⟩⟩⟩, "q", 3⟩

/-- C1 (counterexample): two roombas tie at the minimal distance
(squared distance 1 on both sides); `target_roomba_law` returns `roombaQ`,
the one occurring second in snapshot order, because Python 2's tuple
comparison breaks the distance tie by object identity
(`roombaQ.pyId = 3 < 5 = roombaP.pyId`), not by snapshot order. -/
theorem target_roomba_law_tie_counterexample :
    target_roomba_law [roombaP, roombaQ] drone0 = Except.ok roombaQ ∧
      roomba_distance_sq roombaP drone0 = roomba_distance_sq roombaQ drone0 ∧
      roombaQ ≠ roombaP := by
  refine ⟨?_, ?_, ?_⟩
  · norm_num [target_roomba_law, List.insertionSort, List.orderedInsert, py2_pair_le,
      roomba_distance_sq, roombaP, roombaQ, drone0]
  · norm_num [roomba_distance_sq, roombaP, roombaQ, drone0]
  · simp [roombaP, roombaQ]

/-- C1 (amended): on every non-empty snapshot, `target_roomba_law` returns a
roomba of the snapshot whose planar distance to the vehicle is minimal; the
tie-break among equally-near roombas is by Python 2 object ordering, not by
snapshot order (see the counterexample). -/
theorem target_roomba_law_min (roombas : List Odometry) (odom : Odometry) (h : roombas ≠ []) :
    ∃ r, target_roomba_law roombas odom = Except.ok r ∧ r ∈ roombas ∧
      ∀ x ∈ roombas, roomba_distance_sq r odom ≤ roomba_distance_sq x odom := by
  have hperm :=
    List.perm_insertionSort py2_pair_le (roombas.map (fun r => (roomba_distance_sq r odom, r)))
  have hsorted :=
    List.sorted_insertionSort py2_pair_le (roombas.map (fun r => (roomba_distance_sq r odom, r)))
  cases hs : List.insertionSort py2_pair_le
      (roombas.map (fun r => (roomba_distance_sq r odom, r))) with
  | nil =>
    rw [hs] at hperm
    exact absurd (List.map_eq_nil_iff.mp hperm.symm.eq_nil) h
  | cons p rest =>
    rw [hs] at hperm hsorted
    have hp : p ∈ roombas.map (fun r => (roomba_distance_sq r odom, r)) :=
      hperm.mem_iff.mp (List.mem_cons_self p rest)
    obtain ⟨r0, hr0mem, hr0e⟩ := List.mem_map.mp hp
    refine ⟨r0, ?_, hr0mem, ?_⟩
    · simp only [target_roomba_law, hs, ← hr0e]
    · intro x hx
      have hxp : (roomba_distance_sq x odom, x) ∈ p :: rest :=
        hperm.mem_iff.mpr (List.mem_map_of_mem _ hx)
      have h2 : roomba_distance_sq r0 odom = p.1 := by rw [← hr0e]
      rcases List.mem_cons.mp hxp with heq | hmem
      · have h1 : roomba_distance_sq x odom = p.1 := by rw [← heq]
        rw [h2, ← h1]
      · have hle := List.rel_of_sorted_cons hsorted _ hmem
        simp only [py2_pair_le] at hle
        rcases hle with hlt | ⟨heq2, -⟩
        · exact h2 ▸ le_of_lt hlt
        · exact h2 ▸ le_of_eq heq2

/-- C1 (witness): the amended theorem applied to the singleton snapshot
`[roombaP]` at `drone0`. -/
theorem target_roomba_law_min_witness :
    ∃ r, target_roomba_law [roombaP] drone0 = Except.ok r ∧ r ∈ [roombaP] ∧
      ∀ x ∈ [roombaP], roomba_distance_sq r drone0 ≤ roomba_distance_sq x drone0 :=
  target_roomba_law_min [roombaP] drone0 (by simp)

/-- C7 (counterexample): on the empty snapshot, `target_roomba_law` does not
return a no-target result: evaluating `sorted_roombas[0]` raises an
`IndexError` (the `Except.error` value of the embedding), for the concrete
pose `drone0`. -/
theorem target_roomba_law_empty_counterexample :
    target_roomba_law [] drone0 = Except.error "IndexError: list index out of range" := rfl

/-- C7 (amended): on an empty snapshot `target_roomba_law` fails with an
`IndexError` for every vehicle pose, rather than returning a no-target
value; its only caller polls `self._avail_roombas` behind a
`len(...) > 0` guard, so with an empty snapshot the poll never invokes the
selector: it reports goal failure or success, or keeps waiting. -/
theorem target_roomba_law_empty_raises :
    (∀ odom : Odometry,
        target_roomba_law [] odom = Except.error "IndexError: list index out of range") ∧
      ∀ (c : Client) (odom : Odometry),
        wait_poll c (some []) odom =
          if did_task_fail c then some (false, none)
          else if did_task_succeed c then some (true, none)
          else none := by
  constructor
  · intro odom
    rfl
  · intro c odom
    simp [wait_poll]

/-- C10: `find_roomba_by_id` returns the first element in snapshot order
whose `child_frame_id` equals the requested identifier — the snapshot
splits as `pre ++ r :: post` with no match in `pre` — and returns `none`
exactly when no element matches. -/
theorem find_roomba_by_id_first_match (roombas : List Odometry) (desired_id : String) :
    (∀ r, find_roomba_by_id roombas desired_id = some r →
        r.child_frame_id = desired_id ∧
          ∃ pre post, roombas = pre ++ r :: post ∧
            ∀ x ∈ pre, x.child_frame_id ≠ desired_id) ∧
      (find_roomba_by_id roombas desired_id = none ↔
        ∀ x ∈ roombas, x.child_frame_id ≠ desired_id) := by
  induction roombas with
  | nil => simp [find_roomba_by_id]
  | cons a l ih =>
    by_cases ha : a.child_frame_id = desired_id
    · refine ⟨?_, ?_⟩
      · intro r hr
        have hr' : r = a := by
          simp [find_roomba_by_id, List.filter, ha] at hr
          exact hr.symm
        subst hr'
        exact ⟨ha, [], l, rfl, by simp⟩
      · simp [find_roomba_by_id, List.filter, ha]
    · have hstep : find_roomba_by_id (a :: l) desired_id = find_roomba_by_id l desired_id := by
        simp [find_roomba_by_id, List.filter, beq_eq_false_iff_ne.mpr ha]
      refine ⟨?_, ?_⟩
      · intro r hr
        rw [hstep] at hr
        obtain ⟨hid, pre, post, hsplit, hpre⟩ := ih.1 r hr
        refine ⟨hid, a :: pre, post, by simp [hsplit], ?_⟩
        intro x hx
        rcases List.mem_cons.mp hx with rfl | hx
        · exact ha
        · exact hpre x hx
      · rw [hstep, ih.2]
        constructor
        · intro hall x hx
          rcases List.mem_cons.mp hx with rfl | hx
          · exact ha
          · exact hall x hx
        · intro hall x hx
          exact hall x (List.mem_cons_of_mem a hx)

/-- C10 (witness): the characterization applied to the concrete snapshot
`[roombaP, roombaQ]` and identifier `"q"`. -/
theorem find_roomba_by_id_first_match_witness :
    roombaQ.child_frame_id = "q" ∧
      ∃ pre post, [roombaP, roombaQ] = pre ++ roombaQ :: post ∧
        ∀ x ∈ pre, x.child_frame_id ≠ "q" :=
  (find_roomba_by_id_first_match [roombaP, roombaQ] "q").1 roombaQ
    (by simp [find_roomba_by_id, List.filter, roombaP, roombaQ])

/-- A goal just sent reports PENDING, which is not a failed state. -/
theorem did_task_fail_send (c : Client) (g : QuadMoveGoal) :
    did_task_fail (send_goal c g) = false := rfl

/-- A goal just sent reports PENDING, which is not SUCCEEDED. -/
theorem did_task_succeed_send (c : Client) (g : QuadMoveGoal) :
    did_task_succeed (send_goal c g) = false := rfl

/-- A goal just sent reports PENDING, which is not terminal. -/
theorem did_task_finish_send (c : Client) (g : QuadMoveGoal) :
    did_task_finish (send_goal c g) = false := rfl

/-- Decide state, far target: with the tracked roomba resolved and at squared
distance at least `MIN_GOTO_DISTANCE_SQ`, the tick submits the
translate-to-roomba goal and ends in sub-state 1 (the freshly sent goal is
PENDING, so the fall-through into the sub-state-1 block changes nothing). -/
theorem trackTick_decide_far (roomba_id : String) (snapshot : List Odometry) (odom : Odometry)
    (r : Odometry) (c : Client)
    (hf : find_roomba_by_id snapshot roomba_id = some r)
    (hd : MIN_GOTO_DISTANCE_SQ ≤ roomba_distance_sq r odom) :
    trackTick roomba_id snapshot odom 0 c =
      (none, 1, send_goal c (construct_goto_roomba_goal r)) := by
  simp [trackTick, hf, hd, not_lt.mpr hd, did_task_succeed_send, did_task_fail_send,
    did_task_finish_send]

/-- Decide state, near target: with the tracked roomba at squared distance
below the threshold, the tick submits the zero-overshoot track goal and
ends in sub-state 2. -/
theorem trackTick_decide_near (roomba_id : String) (snapshot : List Odometry) (odom : Odometry)
    (r : Odometry) (c : Client)
    (hf : find_roomba_by_id snapshot roomba_id = some r)
    (hd : roomba_distance_sq r odom < MIN_GOTO_DISTANCE_SQ) :
    trackTick roomba_id snapshot odom 0 c =
      (none, 2, send_goal c { movement_type := "track_roomba", frame_id := roomba_id,
                              x_overshoot := 0, y_overshoot := 0 }) := by
  simp [trackTick, hf, not_le.mpr hd, hd, did_task_finish_send]

/-- Approaching state, near target: whatever status the outstanding goal
reports, the tick cancels it, submits the extended-duration track goal,
and ends in sub-state 2. -/
theorem trackTick_approach_near (roomba_id : String) (snapshot : List Odometry) (odom : Odometry)
    (r : Odometry) (c : Client)
    (hf : find_roomba_by_id snapshot roomba_id = some r)
    (hd : roomba_distance_sq r odom < MIN_GOTO_DISTANCE_SQ) :
    trackTick roomba_id snapshot odom 1 c =
      (none, 2, send_goal (cancel_goal c)
        { movement_type := "track_roomba", frame_id := roomba_id,
          x_overshoot := 0, y_overshoot := 0, time_to_track := 100000 }) := by
  simp [trackTick, hf, hd, did_task_finish_send]

/-- C2: in the Decide sub-state, a target at squared distance at least the
threshold gets a translate-to-target goal and the machine ends the tick in
Approaching (sub-state 1); a nearer target gets the zero-overshoot track
goal and the machine ends in Tracking (sub-state 2); and in Approaching,
at any tick with the target below the threshold — whatever the outstanding
goal reports — the goal is cancelled, the extended-duration track goal is
submitted, and the machine ends in Tracking. -/
theorem trackTick_decide_approach_spec (roomba_id : String) (snapshot : List Odometry)
    (odom : Odometry) (r : Odometry) (c : Client)
    (hf : find_roomba_by_id snapshot roomba_id = some r) :
    (MIN_GOTO_DISTANCE_SQ ≤ roomba_distance_sq r odom →
      trackTick roomba_id snapshot odom 0 c =
        (none, 1, send_goal c (construct_goto_roomba_goal r))) ∧
      (roomba_distance_sq r odom < MIN_GOTO_DISTANCE_SQ →
        trackTick roomba_id snapshot odom 0 c =
          (none, 2, send_goal c { movement_type := "track_roomba", frame_id := roomba_id,
                                  x_overshoot := 0, y_overshoot := 0 })) ∧
      (roomba_distance_sq r odom < MIN_GOTO_DISTANCE_SQ →
        trackTick roomba_id snapshot odom 1 c =
          (none, 2, send_goal (cancel_goal c)
            { movement_type := "track_roomba", frame_id := roomba_id,
              x_overshoot := 0, y_overshoot := 0, time_to_track := 100000 })) :=
  ⟨fun hd => trackTick_decide_far roomba_id snapshot odom r c hf hd,
    fun hd => trackTick_decide_near roomba_id snapshot odom r c hf hd,
    fun hd => trackTick_approach_near roomba_id snapshot odom r c hf hd⟩

/-- C2 (witness): the three branches at concrete inputs — `roombaFar`
(squared distance 100) for the far Decide branch, `roombaNear` (squared
distance 0.01) for the near Decide branch and the Approaching transition,
with the client holding an active goal. -/
theorem trackTick_decide_approach_spec_witness :
    trackTick "target0" [roombaFar] drone0 0 ⟨GoalStatus.active, []⟩ =
        (none, 1, send_goal ⟨GoalStatus.active, []⟩ (construct_goto_roomba_goal roombaFar)) ∧
      trackTick "target0" [roombaNear] drone0 0 ⟨GoalStatus.active, []⟩ =
        (none, 2, send_goal ⟨GoalStatus.active, []⟩
          { movement_type := "track_roomba", frame_id := "target0",
            x_overshoot := 0, y_overshoot := 0 }) ∧
      trackTick "target0" [roombaNear] drone0 1 ⟨GoalStatus.active, []⟩ =
        (none, 2, send_goal (cancel_goal ⟨GoalStatus.active, []⟩)
          { movement_type := "track_roomba", frame_id := "target0",
            x_overshoot := 0, y_overshoot := 0, time_to_track := 100000 }) := by
  refine ⟨(trackTick_decide_approach_spec "target0" [roombaFar] drone0 roombaFar
      ⟨GoalStatus.active, []⟩ ?_).1 ?_,
    (trackTick_decide_approach_spec "target0" [roombaNear] drone0 roombaNear
      ⟨GoalStatus.active, []⟩ ?_).2.1 ?_,
    (trackTick_decide_approach_spec "target0" [roombaNear] drone0 roombaNear
      ⟨GoalStatus.active, []⟩ ?_).2.2 ?_⟩
  · simp [find_roomba_by_id, List.filter, roombaFar]
  · norm_num [roomba_distance_sq, roombaFar, drone0, MIN_GOTO_DISTANCE_SQ, MIN_GOTO_DISTANCE]
  · simp [find_roomba_by_id, List.filter, roombaNear]
  · norm_num [roomba_distance_sq, roombaNear, drone0, MIN_GOTO_DISTANCE_SQ, MIN_GOTO_DISTANCE]
  · simp [find_roomba_by_id, List.filter, roombaNear]
  · norm_num [roomba_distance_sq, roombaNear, drone0, MIN_GOTO_DISTANCE_SQ, MIN_GOTO_DISTANCE]

/-- C3: at every tick and in every internal sub-state, if the tracked
identifier is absent from the current snapshot the tracking loop returns
False (not completed) on that tick, leaving sub-state and client untouched. -/
theorem trackTick_lost_returns_false (roomba_id : String) (snapshot : List Odometry)
    (odom : Odometry) (track_state : ℕ) (c : Client)
    (hf : find_roomba_by_id snapshot roomba_id = none) :
    trackTick roomba_id snapshot odom track_state c = (some false, track_state, c) := by
  simp [trackTick, hf]

/-- C3 (witness): the tracked id `"gone"` is absent from the snapshot
`[roombaFar]`, so the tick in sub-state 2 returns False. -/
theorem trackTick_lost_returns_false_witness :
    trackTick "gone" [roombaFar] drone0 2 ⟨GoalStatus.active, []⟩ =
      (some false, 2, ⟨GoalStatus.active, []⟩) :=
  trackTick_lost_returns_false "gone" [roombaFar] drone0 2 ⟨GoalStatus.active, []⟩
    (by simp [find_roomba_by_id, List.filter, roombaFar])

/-- C6 (counterexample): a goal can still be outstanding when a new one is
submitted without a cancel.  Concretely: the search's translate goal reports
ACTIVE (not terminal), yet the poll returns an acquired roomba, the search
breaks out, and the first tracking tick (Decide, far target) submits the
translate-to-roomba goal — the emitted client operations contain a send and
no preceding cancel while the prior goal was still active. -/
theorem send_while_active_counterexample :
    did_task_finish ⟨GoalStatus.active, []⟩ = false ∧
      wait_poll ⟨GoalStatus.active, []⟩ (some [roombaFar]) drone0 =
        some (true, some roombaFar) ∧
      (trackTick "target0" [roombaFar] drone0 0 ⟨GoalStatus.active, []⟩).2.2.log =
        [GoalAction.send (construct_goto_roomba_goal roombaFar)] := by
  refine ⟨rfl, ?_, ?_⟩
  · norm_num [wait_poll, did_task_fail, did_task_succeed, target_roomba_law,
      List.insertionSort, List.orderedInsert, roomba_distance_sq, roombaFar, drone0]
    decide
  · norm_num [trackTick, find_roomba_by_id, List.filter, roomba_distance_sq,
      MIN_GOTO_DISTANCE_SQ, MIN_GOTO_DISTANCE, send_goal, cancel_goal, did_task_succeed,
      did_task_fail, did_task_finish, roombaFar, drone0]

/-- C6 (amended): submissions from the Decide sub-state append a send with
no cancel — the transport layer is left to supersede any still-active
predecessor goal — and the only explicitly cancelled goal is the
Approaching-state goal on the transition to Tracking, where the emitted
operations are exactly a cancel followed by the track-goal send. -/
theorem cancel_only_on_approach_transition (roomba_id : String) (snapshot : List Odometry)
    (odom : Odometry) (r : Odometry) (c : Client)
    (hf : find_roomba_by_id snapshot roomba_id = some r) :
    (MIN_GOTO_DISTANCE_SQ ≤ roomba_distance_sq r odom →
      (trackTick roomba_id snapshot odom 0 c).2.2.log =
        c.log ++ [GoalAction.send (construct_goto_roomba_goal r)]) ∧
      (roomba_distance_sq r odom < MIN_GOTO_DISTANCE_SQ →
        (trackTick roomba_id snapshot odom 0 c).2.2.log =
          c.log ++ [GoalAction.send { movement_type := "track_roomba", frame_id := roomba_id,
                                      x_overshoot := 0, y_overshoot := 0 }]) ∧
      (roomba_distance_sq r odom < MIN_GOTO_DISTANCE_SQ →
        (trackTick roomba_id snapshot odom 1 c).2.2.log =
          c.log ++ [GoalAction.cancel,
            GoalAction.send { movement_type := "track_roomba", frame_id := roomba_id,
                              x_overshoot := 0, y_overshoot := 0, time_to_track := 100000 }]) := by
  refine ⟨fun hd => ?_, fun hd => ?_, fun hd => ?_⟩
  · rw [trackTick_decide_far roomba_id snapshot odom r c hf hd]
    simp [send_goal]
  · rw [trackTick_decide_near roomba_id snapshot odom r c hf hd]
    simp [send_goal]
  · rw [trackTick_approach_near roomba_id snapshot odom r c hf hd]
    simp [send_goal, cancel_goal]

/-- C6 (amended, witness): the cancel-then-send shape of the
Approaching-to-Tracking transition at concrete inputs. -/
theorem cancel_only_on_approach_transition_witness :
    (trackTick "target0" [roombaNear] drone0 1 ⟨GoalStatus.active, []⟩).2.2.log =
      [] ++ [GoalAction.cancel,
        GoalAction.send { movement_type := "track_roomba", frame_id := "target0",
                          x_overshoot := 0, y_overshoot := 0, time_to_track := 100000 }] :=
  (cancel_only_on_approach_transition "target0" [roombaNear] drone0 roombaNear
      ⟨GoalStatus.active, []⟩ (by simp [find_roomba_by_id, List.filter, roombaNear])).2.2
    (by norm_num [roomba_distance_sq, roombaNear, drone0, MIN_GOTO_DISTANCE_SQ,
      MIN_GOTO_DISTANCE])

/-- C8 (counterexample): the flight-time bound is not enforced while
tracking.  The tracking tick consults no clock at all (time is not among
its inputs); concretely, at a moment when 61 seconds — more than
`MAX_FLIGHT_DURATION` — have elapsed, a tick with the target still visible
neither exits the tracking loop nor emits any goal: the mission does not
proceed to land. -/
theorem deadline_ignored_while_tracking_counterexample :
    MAX_FLIGHT_DURATION < 61 ∧
      trackTick "target0" [roombaFar] drone0 2 ⟨GoalStatus.active, []⟩ =
        (none, 2, ⟨GoalStatus.active, []⟩) := by
  constructor
  · norm_num [MAX_FLIGHT_DURATION]
  · norm_num [trackTick, find_roomba_by_id, List.filter, roomba_distance_sq,
      MIN_GOTO_DISTANCE_SQ, MIN_GOTO_DISTANCE, did_task_succeed, did_task_fail,
      did_task_finish, roombaFar, drone0]
    decide

/-- C8 (amended): the deadline is consulted only at the acquisition loop's
check point: there, once the time value observed after an iteration
strictly exceeds `flight_start_time + MAX_FLIGHT_DURATION` (and the count
condition has not fired), the loop exits and the single land goal follows;
but while the target remains visible the tracking loop never returns on its
own — its tick has no time input — so a mission stuck in tracking (or in
the search, whose loop likewise never consults the clock) does not land
when the deadline passes. -/
theorem deadline_checked_only_at_loop :
    (∀ (flight_start_time now : ℚ) (got_roomba : Bool) (g0 : ℕ) (rest : List (Bool × ℚ)),
        ¬ TARGET_NUM_ROOMBAS < (if got_roomba then g0 + 1 else g0) →
        flight_start_time + MAX_FLIGHT_DURATION < now →
        mission_loop flight_start_time g0 ((got_roomba, now) :: rest) =
          some (if got_roomba then g0 + 1 else g0, 1)) ∧
      ∀ (roomba_id : String) (snapshot : List Odometry) (odom : Odometry) (track_state : ℕ)
        (c : Client) (r : Odometry),
        find_roomba_by_id snapshot roomba_id = some r →
        (trackTick roomba_id snapshot odom track_state c).1 = none := by
  constructor
  · intro flight_start_time now got_roomba g0 rest hcount htime
    simp [mission_loop, hcount, htime]
  · intro roomba_id snapshot odom track_state c r hf
    simp [trackTick, hf]

/-- C8 (amended, witness): the loop exits and lands at a check observing
time 61 past a start of 0 with no roomba caught, and a tracking tick with
`roombaFar` visible does not exit. -/
theorem deadline_checked_only_at_loop_witness :
    mission_loop 0 0 [(false, 61)] = some (0, 1) ∧
      (trackTick "target0" [roombaFar] drone0 2 ⟨GoalStatus.active, []⟩).1 = none := by
  constructor
  · exact (deadline_checked_only_at_loop.1 0 61 false 0 [] (by decide)
      (by norm_num [MAX_FLIGHT_DURATION]))
  · exact deadline_checked_only_at_loop.2 "target0" [roombaFar] drone0 2
      ⟨GoalStatus.active, []⟩ roombaFar (by simp [find_roomba_by_id, List.filter, roombaFar])

/-- The cursor advance never produces index 0: it yields `s + 1 ≥ 1` or
wraps to 1. -/
theorem search_advance_ne_zero (s : ℕ) : search_advance s ≠ 0 := by
  unfold search_advance
  split <;> omega

/-- Helper for C5: starting from a nonzero cursor, the search loop never
passes waypoint index 0 to `begin_translate`. -/
theorem search_loop_no_zero (resps : List SearchResp) :
    ∀ s : ℕ, s ≠ 0 → 0 ∉ (search_loop s resps).1 := by
  induction resps with
  | nil => intro s hs; simp [search_loop]
  | cons e rest ih =>
    intro s hs
    cases e with
    | xlate_failed =>
      simp only [search_loop, List.mem_cons]
      rintro (h | h)
      · exact hs h.symm
      · exact ih s hs h
    | no_roomba =>
      simp only [search_loop, List.mem_cons]
      rintro (h | h)
      · exact hs h.symm
      · exact ih (search_advance s) (search_advance_ne_zero s) h
    | found roomba =>
      simp only [search_loop, List.mem_cons, List.not_mem_nil, or_false]
      intro h
      exact hs h.symm

/-- C5 (counterexample): with the cursor at its initial value 0, the first
waypoint the search submits is index 0 (the home/center point), not
index 1: the `if self._search_state != 0` entry branch leaves a zero cursor
untouched. -/
theorem search_first_waypoint_counterexample :
    (search_for_roomba 0 [SearchResp.no_roomba]).1 = [0] ∧ (0 : ℕ) ≠ 1 := by
  constructor
  · simp [search_for_roomba, search_entry, search_loop]
  · decide

/-- C5 (amended): starting with cursor 0, the search submits waypoint
index 0 first, then on successive no-acquisition steps indices 1, 2, 3, 4,
5, and wraps to 1, never revisiting 0; and from any nonzero cursor the
search never submits index 0. -/
theorem search_visits_spec :
    (search_for_roomba 0 (List.replicate 7 SearchResp.no_roomba)).1 = [0, 1, 2, 3, 4, 5, 1] ∧
      ∀ (s0 : ℕ) (resps : List SearchResp), s0 ≠ 0 → 0 ∉ (search_for_roomba s0 resps).1 := by
  constructor
  · norm_num [search_for_roomba, search_entry, search_loop, search_advance, SEARCH_POINTS]
  · intro s0 resps hs
    have h1 : search_entry s0 = 1 := by simp [search_entry, hs]
    unfold search_for_roomba
    rw [h1]
    exact search_loop_no_zero resps 1 (by omega)

/-- C5 (amended, witness): the no-zero clause applied to cursor 2 and a
single no-acquisition step. -/
theorem search_visits_spec_witness :
    0 ∉ (search_for_roomba 2 [SearchResp.no_roomba]).1 :=
  search_visits_spec.2 2 [SearchResp.no_roomba] (by omega)

/-- Helper for C9: whenever the search loop exits with a roomba, the cursor
value it hands back is 1 (the assignment just before `return roomba`). -/
theorem search_loop_found_state (resps : List SearchResp) :
    ∀ (s s1 : ℕ) (r : Odometry), (search_loop s resps).2 = some (r, s1) → s1 = 1 := by
  induction resps with
  | nil => intro s s1 r h; simp [search_loop] at h
  | cons e rest ih =>
    intro s s1 r h
    cases e with
    | xlate_failed => exact ih s s1 r h
    | no_roomba => exact ih (search_advance s) s1 r h
    | found roomba =>
      simp only [search_loop, Option.some.injEq, Prod.mk.injEq] at h
      exact h.2.symm

/-- C9: every return of `search_for_roomba` that acquires a target leaves
the search cursor at 1, so the next sweep starts from the first active
waypoint. -/
theorem search_for_roomba_resets_cursor (s0 : ℕ) (resps : List SearchResp) (r : Odometry)
    (s1 : ℕ) (h : (search_for_roomba s0 resps).2 = some (r, s1)) : s1 = 1 :=
  search_loop_found_state resps (search_entry s0) s1 r h

/-- C9 (witness): a search from cursor 3 that acquires `roombaFar` on its
first step returns with cursor 1. -/
theorem search_for_roomba_resets_cursor_witness : (1 : ℕ) = 1 :=
  search_for_roomba_resets_cursor 3 [SearchResp.found roombaFar] roombaFar 1
    (by simp [search_for_roomba, search_entry, search_loop])

/-- Unfolding of one acquisition-loop iteration. -/
theorem mission_loop_cons (flight_start_time : ℚ) (g0 : ℕ) (got_roomba : Bool) (now : ℚ)
    (rest : List (Bool × ℚ)) :
    mission_loop flight_start_time g0 ((got_roomba, now) :: rest) =
      if TARGET_NUM_ROOMBAS < (if got_roomba then g0 + 1 else g0) then
        some (if got_roomba then g0 + 1 else g0, 1)
      else if flight_start_time + MAX_FLIGHT_DURATION < now then
        some (if got_roomba then g0 + 1 else g0, 1)
      else mission_loop flight_start_time (if got_roomba then g0 + 1 else g0) rest := rfl

/-- Helper for C4: the acquisition loop returns `some` exactly by exiting at
the first check point whose exit condition holds, with the land goal issued
once and the final counter equal to the successes among the consumed
iterations; it returns `none` (still looping, no land issued) exactly when
no consumed check point satisfies the exit condition. -/
theorem mission_loop_spec (flight_start_time : ℚ) (iters : List (Bool × ℚ)) : ∀ g0 : ℕ,
    (∀ g n, mission_loop flight_start_time g0 iters = some (g, n) →
        n = 1 ∧ ∃ k, mission_exit_cond flight_start_time g0 iters k ∧
          (∀ j < k, ¬ mission_exit_cond flight_start_time g0 iters j) ∧
          g = g0 + (iters.take (k + 1)).countP (fun p => p.1)) ∧
      (mission_loop flight_start_time g0 iters = none →
        ∀ j, ¬ mission_exit_cond flight_start_time g0 iters j) := by
  induction iters with
  | nil =>
    intro g0
    constructor
    · intro g n h
      simp [mission_loop] at h
    · intro _ j
      simp [mission_exit_cond]
  | cons e rest ih =>
    intro g0
    obtain ⟨got, now⟩ := e
    by_cases hc : TARGET_NUM_ROOMBAS < (if got then g0 + 1 else g0) ∨
        flight_start_time + MAX_FLIGHT_DURATION < now
    · have hsome : mission_loop flight_start_time g0 ((got, now) :: rest) =
          some (if got then g0 + 1 else g0, 1) := by
        rw [mission_loop_cons]
        rcases hc with hc1 | hc2
        · rw [if_pos hc1]
        · by_cases hc1 : TARGET_NUM_ROOMBAS < (if got then g0 + 1 else g0)
          · rw [if_pos hc1]
          · rw [if_neg hc1, if_pos hc2]
      constructor
      · intro g n h
        rw [hsome] at h
        simp only [Option.some.injEq, Prod.mk.injEq] at h
        obtain ⟨hg, hn⟩ := h
        refine ⟨by omega, 0, hc, by omega, ?_⟩
        rw [← hg]
        cases got <;> simp [List.countP_cons]
      · intro h
        rw [hsome] at h
        exact absurd h (by simp)
    · have hstep : mission_loop flight_start_time g0 ((got, now) :: rest) =
          mission_loop flight_start_time (if got then g0 + 1 else g0) rest := by
        rw [mission_loop_cons]
        push_neg at hc
        rw [if_neg (not_lt.mpr hc.1), if_neg (not_lt.mpr hc.2)]
      constructor
      · intro g n h
        rw [hstep] at h
        obtain ⟨hn, k, hk, hmin, hcount⟩ := (ih (if got then g0 + 1 else g0)).1 g n h
        refine ⟨hn, k + 1, hk, ?_, ?_⟩
        · intro j hj
          cases j with
          | zero => exact hc
          | succ j' => exact hmin j' (by omega)
        · rw [List.take_succ_cons, List.countP_cons]
          cases got <;> simp at hcount ⊢ <;> omega
      · intro h j
        rw [hstep] at h
        have hall := (ih (if got then g0 + 1 else g0)).2 h
        cases j with
        | zero => exact hc
        | succ j' => exact hall j'

/-- C4 (counterexample): at a check point where the elapsed time equals
`MAX_FLIGHT_DURATION` exactly (start 0, observed time 60), the claim's
"at least" condition holds, yet the loop does not exit — the source
compares with a strict `>` — so no land goal is issued on that trace. -/
theorem mission_boundary_counterexample :
    MAX_FLIGHT_DURATION ≤ (60 : ℚ) - 0 ∧ attempt_mission7 0 [(false, 60)] = none := by
  constructor
  · norm_num [MAX_FLIGHT_DURATION]
  · norm_num [attempt_mission7, mission_loop, TARGET_NUM_ROOMBAS, MAX_FLIGHT_DURATION]

/-- C4 (amended): the acquisition loop exits at the first check point where
the updated acquired count exceeds `TARGET_NUM_ROOMBAS` or the observed
time strictly exceeds `flight_start_time + MAX_FLIGHT_DURATION` — whichever
occurs first — and then issues the land goal exactly once; while no
consumed check point satisfies either condition the loop keeps running and
no land goal is issued. -/
theorem attempt_mission7_exit_spec (flight_start_time : ℚ) (iters : List (Bool × ℚ)) :
    (∀ g n, attempt_mission7 flight_start_time iters = some (g, n) →
        n = 1 ∧ ∃ k, mission_exit_cond flight_start_time 0 iters k ∧
          (∀ j < k, ¬ mission_exit_cond flight_start_time 0 iters j) ∧
          g = (iters.take (k + 1)).countP (fun p => p.1)) ∧
      (attempt_mission7 flight_start_time iters = none →
        ∀ j, ¬ mission_exit_cond flight_start_time 0 iters j) := by
  have h := mission_loop_spec flight_start_time iters 0
  simpa [attempt_mission7] using h

/-- C4 (amended, witness): a run whose first check (time 20) fires neither
condition and whose second check (time 70, past the 60-second bound) exits
the loop with zero catches: one land goal, exit at check index 1. -/
theorem attempt_mission7_exit_spec_witness :
    1 = 1 ∧ ∃ k, mission_exit_cond 0 0 [(false, 20), (false, 70)] k ∧
      (∀ j < k, ¬ mission_exit_cond 0 0 [(false, 20), (false, 70)] j) ∧
      (0 : ℕ) = (([(false, 20), (false, 70)] : List (Bool × ℚ)).take (k + 1)).countP
        (fun p => p.1) :=
  (attempt_mission7_exit_spec 0 [(false, 20), (false, 70)]).1 0 1
    (by norm_num [attempt_mission7, mission_loop, TARGET_NUM_ROOMBAS, MAX_FLIGHT_DURATION])
